import Mathlib

/-!
Verification of the Cloudflare worker starter template core:
session manager, rate limiter, throttled logger, and email validator,
shallowly embedded from the JavaScript sources.

Conventions of the embedding:
* JS timestamps (`Date.now()`) are `Int` milliseconds.
* The KV store namespaces (`env.SESSIONS`, `env.AUDIT`) are association
  lists keyed by `String`; `put` shadows, `delete` removes every shadow,
  `get` reads the most recent binding.  JSON serialization of records is
  abstracted away: values are stored as their structured form.
* JS truthiness of a number is `≠ 0`, of a string is `≠ ""`, of
  `null`/`undefined` is false.
* Thrown store errors are injected through explicit `Option KVError` /
  `Except` parameters; `KVError.limitExceeded` stands for an error whose
  message contains the sentinel string `KV put() limit exceeded`.
-/

namespace Worker

/-- Errors thrown by the KV adapter, as distinguished by `isKVLimitError`
(`kv-utils.js`): a quota error carrying the sentinel message, or any
other error. -/
inductive KVError where
  | limitExceeded
  | other (msg : String)
deriving Repr, DecidableEq

/-- A KV namespace: an association list, most recent binding first. -/
abbrev Store (α : Type) := List (String × α)

/-- `get(key)`: the most recent binding for `key`, if any. -/
def kvGet {α : Type} (s : Store α) (k : String) : Option α :=
  match s.find? (fun p => p.1 == k) with
  | some p => some p.2
  | none => none

/-- `put(key, value)`: bind `key`, shadowing earlier bindings. -/
def kvPut {α : Type} (s : Store α) (k : String) (v : α) : Store α :=
  (k, v) :: s

/-- `delete(key)`: remove every binding of `key`. -/
def kvDel {α : Type} (s : Store α) (k : String) : Store α :=
  s.filter (fun p => !(p.1 == k))

/-! ## JS string primitives

Kernel-computable models of the JavaScript string methods used by the
sources, operating on the character lists underlying Lean strings
(the built-in `String` operations do not reduce inside the kernel). -/

/-- `s.startsWith(pre)` (arguments reversed). -/
def listStartsWith : List Char → List Char → Bool
  | [], _ => true
  | _ :: _, [] => false
  | c :: cs, d :: ds => c == d && listStartsWith cs ds

/-- Worker for `jsSplit`; the fuel is always the subject's length, which
bounds the number of steps since a non-empty separator consumes at least
one character per cut. -/
def jsSplitFuel (sep : List Char) : Nat → List Char → List Char → List (List Char)
  | _, [], acc => [acc.reverse]
  | 0, s, acc => [acc.reverse ++ s]
  | fuel + 1, c :: rest, acc =>
    if listStartsWith sep (c :: rest) then
      acc.reverse :: jsSplitFuel sep fuel (List.drop sep.length (c :: rest)) []
    else
      jsSplitFuel sep fuel rest (c :: acc)

/-- `s.split(sep)` for a non-empty separator string. -/
def jsSplit (sep s : List Char) : List (List Char) :=
  jsSplitFuel sep s.length s []

/-- The whitespace class of `trim` (its ASCII part, enough for the
inputs considered here). -/
def jsIsSpace (c : Char) : Bool :=
  c == ' ' || c == '\t' || c == '\n' || c == '\r' || c == '\x0b' || c == '\x0c'

/-- `s.trim()`. -/
def jsTrim (s : List Char) : List Char :=
  ((s.dropWhile jsIsSpace).reverse.dropWhile jsIsSpace).reverse

/-- `s.toLowerCase()` (ASCII case folding, enough for the inputs here). -/
def jsToLower (s : List Char) : List Char :=
  s.map Char.toLower

/-- Session record stored in `env.SESSIONS` (`session.js`, `createSession`).
The `id` field is absent from the stored JSON; `getSession` sets it on the
returned object (`session.id = id`), so stored records carry `id := ""`. -/
structure Session where
  email : String
  createdAt : Int
  lastActivity : Int
  expiresAt : Int
  userAgent : String
  ip : String
  id : String := ""
deriving Repr, DecidableEq

/-- `config.session` from `getConfig` (`config.js`); field defaults are the
fallback values used when the environment variables are unset. -/
structure SessionConfig where
  maxAge : Int := 604800000
  timeout : Int := 1800000
  expirationTtl : Int := 604800
deriving Repr, DecidableEq

/-- The slice of `getConfig(env)` used by the session manager. -/
structure Config where
  session : SessionConfig := {}
deriving Repr, DecidableEq

/-- `getConfig(env)` with no environment overrides. -/
def defaultConfig : Config := {}

/-- The cookie-parsing part of `getSession` (`session.js` lines 9-15):
split the `Cookie` header on `"; "`, take the row starting with
`session=`, take the part after the first `=`. -/
def parseSessionId (cookie : Option String) : Option String :=
  match cookie with
  | none => none
  | some c =>
    match (jsSplit "; ".data c.data).find? (fun row => listStartsWith "session=".data row) with
    | none => none
    | some sessionCookie => ((jsSplit "=".data sessionCookie)[1]?).map String.mk

/-- `destroySession(env, sessionId)`: delete the record. -/
def destroySession (store : Store Session) (sessionId : String) : Store Session :=
  kvDel store sessionId

/-- Result of `getSession`: the returned session (or absent), the SESSIONS
store afterwards, and whether a store write was performed. -/
structure GetSessionResult where
  session : Option Session
  store : Store Session
  wrote : Bool
deriving Repr, DecidableEq

/-- `getSession(request, env)` (`session.js` lines 8-56).  `putFault`
injects the outcome of the activity-refresh `put`: `none` means success,
`limitExceeded` is caught and swallowed (the read still succeeds), any
other error is rethrown.  Number truthiness (`session.expiresAt &&`,
`session.lastActivity &&`, `!session.lastActivity`) is modelled as `≠ 0`. -/
def getSession (cookie : Option String) (store : Store Session) (now : Int)
    (cfg : Config) (putFault : Option KVError) : Except KVError GetSessionResult :=
  match parseSessionId cookie with
  | none => .ok ⟨none, store, false⟩
  | some id =>
    match kvGet store id with
    | none => .ok ⟨none, store, false⟩
    | some session =>
      if session.expiresAt ≠ 0 ∧ session.expiresAt < now then
        .ok ⟨none, destroySession store id, false⟩
      else if session.lastActivity ≠ 0 ∧ now - session.lastActivity > cfg.session.timeout then
        .ok ⟨none, destroySession store id, false⟩
      else
        let fiveMinutes : Int := 5 * 60 * 1000
        if session.lastActivity = 0 ∨ now - session.lastActivity > fiveMinutes then
          let updated := { session with lastActivity := now }
          match putFault with
          | none => .ok ⟨some { updated with id := id }, kvPut store id updated, true⟩
          | some KVError.limitExceeded => .ok ⟨some { updated with id := id }, store, false⟩
          | some (KVError.other m) => .error (KVError.other m)
        else
          .ok ⟨some { session with id := id }, store, false⟩

/-- Options argument of `createSession`; `maxAge := 0` models an absent
`options.maxAge` (and `0` itself, both falsy in `options.maxAge ||
config.session.maxAge`). -/
structure SessionOptions where
  maxAge : Int := 0
  userAgent : String := ""
  ip : String := ""
deriving Repr, DecidableEq

/-- `createSession(env, email, options)` (`session.js` lines 58-77).
`crypto.randomUUID()` is modelled by the `sessionId` parameter; the
store write is assumed to succeed (a thrown store error would simply
propagate).  Returns the identifier and the updated store. -/
def createSession (store : Store Session) (sessionId : String) (email : String)
    (now : Int) (cfg : Config) (options : SessionOptions) : String × Store Session :=
  let sessionData : Session :=
    { email := email
      createdAt := now
      lastActivity := now
      expiresAt := now + (if options.maxAge ≠ 0 then options.maxAge else cfg.session.maxAge)
      userAgent := options.userAgent
      ip := options.ip }
  (sessionId, kvPut store sessionId sessionData)

/-- Options argument of `createSessionCookie` with its JS defaults. -/
structure CookieOptions where
  httpOnly : Bool := true
  secure : Bool := true
  sameSite : String := "Strict"
  maxAge : Int := 604800
  domain : Option String := none
  path : String := "/"
deriving Repr, DecidableEq

/-- `createSessionCookie(sessionId, options)` (`session.js` lines 97-116).
Each attribute is appended only when the corresponding option is truthy,
exactly as the chain of `if (...) cookie += ...` statements does. -/
def createSessionCookie (sessionId : String) (options : CookieOptions) : String :=
  let cookie := "session=" ++ sessionId
  let cookie := if options.httpOnly then cookie ++ "; HttpOnly" else cookie
  let cookie := if options.secure then cookie ++ "; Secure" else cookie
  let cookie := if options.sameSite ≠ "" then cookie ++ "; SameSite=" ++ options.sameSite else cookie
  let cookie := if options.maxAge ≠ 0 then cookie ++ "; Max-Age=" ++ toString options.maxAge else cookie
  let cookie :=
    match options.domain with
    | some d => if d ≠ "" then cookie ++ "; Domain=" ++ d else cookie
    | none => cookie
  if options.path ≠ "" then cookie ++ "; Path=" ++ options.path else cookie

/-! ## Rate limiter (`ratelimit.js`) -/

/-- Result object of `checkRateLimit`; `resetTime` is `none` when the JS
object carries no `resetTime` property (fail-open path) or when it would
be `Infinity` (`Math.min()` of an empty array, reachable only for
`limit ≤ 0`). -/
structure RateLimitResult where
  allowed : Bool
  remaining : Int
  resetTime : Option Int
deriving Repr, DecidableEq

/-- The composite key `ratelimit_${action}_${identifier}`. -/
def rlKey (action identifier : String) : String :=
  "ratelimit_" ++ action ++ "_" ++ identifier

/-- `Math.min(...xs)`: `none` models the `Infinity` of an empty spread. -/
def mathMin : List Int → Option Int
  | [] => none
  | x :: xs => some (xs.foldl min x)

/-- The requests array stored under a key; an absent record behaves as the
empty array (`let requests = []` when `rateLimitData` is null). -/
def storedRequests (s : Store (List Int)) (key : String) : List Int :=
  match kvGet s key with
  | some l => l
  | none => []

/-- `checkRateLimit(env, identifier, action, limit, windowMs)`
(`ratelimit.js` lines 114-161).  `now` is `Date.now()`.  `getFault`
injects a thrown read error (caught by the outer catch: fail open);
`putFault` injects the outcome of the `safeKVWrite` wrapped `put`: a
quota error is swallowed (write skipped), any other error is rethrown and
caught by the outer catch (fail open).  The stored JSON
`{ requests: [...] }` is abstracted to the timestamp list itself. -/
def checkRateLimit (store : Store (List Int)) (identifier action : String)
    (limit windowMs now : Int) (getFault putFault : Option KVError) :
    RateLimitResult × Store (List Int) :=
  let key := rlKey action identifier
  let windowStart := now - windowMs
  match getFault with
  | some _ => ({ allowed := true, remaining := limit - 1, resetTime := none }, store)
  | none =>
    let requests := (storedRequests store key).filter (fun timestamp => windowStart < timestamp)
    if limit ≤ (requests.length : Int) then
      match mathMin requests with
      | some oldestRequest =>
        ({ allowed := false, resetTime := some (oldestRequest + windowMs), remaining := 0 },
         store)
      | none =>
        ({ allowed := false, resetTime := none, remaining := 0 }, store)
    else
      let requests := requests ++ [now]
      match putFault with
      | some (KVError.other _) =>
        ({ allowed := true, remaining := limit - 1, resetTime := none }, store)
      | some KVError.limitExceeded =>
        ({ allowed := true, remaining := limit - (requests.length : Int),
           resetTime := some (now + windowMs) }, store)
      | none =>
        ({ allowed := true, remaining := limit - (requests.length : Int),
           resetTime := some (now + windowMs) }, kvPut store key requests)

/-- Run `checkRateLimit` fault-free at each timestamp of `ts` in order,
threading the AUDIT store; returns the result of each call and the final
store. -/
def runRateLimit (identifier action : String) (limit windowMs : Int) :
    Store (List Int) → List Int → List RateLimitResult × Store (List Int)
  | s, [] => ([], s)
  | s, t :: ts =>
    let step := checkRateLimit s identifier action limit windowMs t none none
    let rest := runRateLimit identifier action limit windowMs step.2 ts
    (step.1 :: rest.1, rest.2)

/-! ## Throttled logger (`kv-utils.js`) -/

/-- The mutable fields of a `ThrottledLogger` instance together with its
configured cap. -/
structure ThrottledLoggerState where
  maxLogsPerHour : Int
  logCount : Int
  hourStart : Int
deriving Repr, DecidableEq

/-- The `ThrottledLogger` constructor: `maxLogsPerHour ||
config.logging.maxLogsPerHour` (default 100), `logCount = 0`,
`hourStart = Date.now()` at construction time. -/
def mkThrottledLogger (maxLogs : Option Int) (now : Int) : ThrottledLoggerState :=
  { maxLogsPerHour :=
      match maxLogs with
      | some m => if m ≠ 0 then m else 100
      | none => 100
    logCount := 0
    hourStart := now }

/-- Outcome of one `log` call: the returned boolean, the instance state
afterwards, and whether a store write was attempted. -/
structure LogOutcome where
  returned : Bool
  state : ThrottledLoggerState
  wroteAttempted : Bool
deriving Repr, DecidableEq

/-- `ThrottledLogger.log` (`kv-utils.js` lines 52-82).  `writeSucceeds`
is the boolean returned by `safeKVWrite`: `true` on success, `false` when
a quota error was swallowed (a rethrown non-quota error, which would
propagate to the caller, is outside this model). -/
def logStep (st : ThrottledLoggerState) (now : Int) (writeSucceeds : Bool) : LogOutcome :=
  let st :=
    if now - st.hourStart > 60 * 60 * 1000 then
      { st with logCount := 0, hourStart := now }
    else st
  if st.maxLogsPerHour ≤ st.logCount then
    ⟨false, st, false⟩
  else if writeSucceeds then
    ⟨true, { st with logCount := st.logCount + 1 }, true⟩
  else
    ⟨false, st, true⟩

/-! ## A small regular-expression evaluator

`email-validation.js` tests fixed regular expressions with `RegExp.test`.
The patterns used there need only character classes, literals, `+`, `*`,
bounded repetition, alternation and the `$` anchor; `^` anchoring is
handled by matching from the start of the string versus searching at
every position. -/

/-- Character classes and combinators sufficient for the validator's
patterns. -/
inductive RE where
  | lit (cs : List Char)
  | cls (p : Char → Bool)
  | plus (p : Char → Bool)
  | star (p : Char → Bool)
  | seq (a b : RE)
  | alt (a b : RE)
  | eos

/-- Consume a literal character sequence, returning the rest. -/
def litMatch : List Char → List Char → Option (List Char)
  | [], s => some s
  | _ :: _, [] => none
  | c :: cs, d :: s => if c = d then litMatch cs s else none

/-- Backtracking one-or-more repetition of a character class, in
continuation style: consume at least one matching character, then try
the continuation after every possible number of them. -/
def matchPlusFrom (p : Char → Bool) : List Char → (List Char → Bool) → Bool
  | [], _ => false
  | c :: rest, k => p c && (k rest || matchPlusFrom p rest k)

/-- Backtracking matcher: `matchRE r s k` holds iff some prefix of `s`
matches `r` and `k` accepts the corresponding suffix. -/
def matchRE : RE → List Char → (List Char → Bool) → Bool
  | .lit cs, s, k =>
    match litMatch cs s with
    | some rest => k rest
    | none => false
  | .cls p, s, k =>
    match s with
    | [] => false
    | c :: rest => p c && k rest
  | .plus p, s, k => matchPlusFrom p s k
  | .star p, s, k => k s || matchPlusFrom p s k
  | .seq a b, s, k => matchRE a s (fun t => matchRE b t k)
  | .alt a b, s, k => matchRE a s k || matchRE b s k
  | .eos, s, k => s.isEmpty && k s

/-- `re.test(s)` for a pattern anchored with `^`: match at the start. -/
def reTestAt (r : RE) (s : List Char) : Bool :=
  matchRE r s (fun _ => true)

/-- `re.test(s)` for an unanchored pattern: match at some position. -/
def reSearch (r : RE) (s : List Char) : Bool :=
  s.tails.any (fun t => matchRE r t (fun _ => true))

/-- A literal string pattern. -/
def strLit (s : String) : RE := .lit s.data

/-- Exactly `n` repetitions of a class (`{n}`). -/
def repCls : Nat → (Char → Bool) → RE
  | 0, _ => .lit []
  | n + 1, p => .seq (.cls p) (repCls n p)

/-- `{n,}`: at least `n` repetitions. -/
def repAtLeast (n : Nat) (p : Char → Bool) : RE :=
  .seq (repCls n p) (.star p)

/-- `{lo,hi}`: between `lo` and `hi` repetitions. -/
def repRange (lo hi : Nat) (p : Char → Bool) : RE :=
  (List.range (hi - lo)).foldl (fun r i => .alt r (repCls (lo + i + 1) p)) (repCls lo p)

/-- A JS regular expression as used by `.test`: `anchored` records a
leading `^`. -/
structure JsPattern where
  anchored : Bool
  re : RE

/-- `pattern.test(s)`. -/
def patternTest (p : JsPattern) (s : List Char) : Bool :=
  if p.anchored then reTestAt p.re s else reSearch p.re s

/-- `[a-z]` under the `i` flag. -/
def alphaCls (c : Char) : Bool :=
  ('a' ≤ c && c ≤ 'z') || ('A' ≤ c && c ≤ 'Z')

/-- `\d`. -/
def digitCls (c : Char) : Bool := '0' ≤ c && c ≤ '9'

/-- `\w`. -/
def wordCls (c : Char) : Bool := alphaCls c || digitCls c || c = '_'

/-- `[^\s@]` (with `\s` as in `jsIsSpace`). -/
def localCls (c : Char) : Bool := !(jsIsSpace c) && c ≠ '@'

/-- `[._-]`. -/
def sepCls (c : Char) : Bool := c = '.' || c = '_' || c = '-'

/-- `\.` as a class. -/
def dotCls (c : Char) : Bool := c = '.'

/-- `.` (any character but a newline). -/
def anyCls (c : Char) : Bool := c ≠ '\n'

/-- Sequence a list of patterns. -/
def seqs (rs : List RE) : RE :=
  rs.foldr RE.seq (.lit [])

/-! ## Email validation (`email-validation.js`) -/

/-- `FALLBACK_DISPOSABLE_DOMAINS` (lines 46-51). -/
def FALLBACK_DISPOSABLE_DOMAINS : List String :=
  ["10minutemail.com", "guerrillamail.com", "mailinator.com",
   "tempmail.org", "throwaway.email", "yopmail.com", "maildrop.cc",
   "example.com", "test.com", "fake.com", "localhost.com"]

/-- `SUSPICIOUS_PATTERNS` (lines 145-160), in source order.  The inputs
are lowercased before testing, so the `i` flag only widens classes.
1. `/^[a-z]{1,3}\d{4,}@/i`  2. `/^\d{6,}@/`  3. `/^[a-z]+\d{10,}@/i`
4-9. `/^test\d*@/i` … `/^info\d*@/i`  10. `/^[a-z]{1,2}@/i`
11. `/^[a-z]+[._-][a-z]+[._-][a-z]+@/i`  12. `/\+.*\+.*@/`
13. `/\.{2,}/`  14. `/^.*\.(ru|tk|ml|ga|cf)$/i` -/
def SUSPICIOUS_PATTERNS : List JsPattern :=
  [⟨true, seqs [repRange 1 3 alphaCls, repAtLeast 4 digitCls, strLit "@"]⟩,
   ⟨true, seqs [repAtLeast 6 digitCls, strLit "@"]⟩,
   ⟨true, seqs [.plus alphaCls, repAtLeast 10 digitCls, strLit "@"]⟩,
   ⟨true, seqs [strLit "test", .star digitCls, strLit "@"]⟩,
   ⟨true, seqs [strLit "spam", .star digitCls, strLit "@"]⟩,
   ⟨true, seqs [strLit "fake", .star digitCls, strLit "@"]⟩,
   ⟨true, seqs [strLit "temp", .star digitCls, strLit "@"]⟩,
   ⟨true, seqs [strLit "noreply", .star digitCls, strLit "@"]⟩,
   ⟨true, seqs [strLit "info", .star digitCls, strLit "@"]⟩,
   ⟨true, seqs [repRange 1 2 alphaCls, strLit "@"]⟩,
   ⟨true, seqs [.plus alphaCls, .cls sepCls, .plus alphaCls, .cls sepCls,
                .plus alphaCls, strLit "@"]⟩,
   ⟨false, seqs [strLit "+", .star anyCls, strLit "+", .star anyCls, strLit "@"]⟩,
   ⟨false, repAtLeast 2 dotCls⟩,
   ⟨true, seqs [.star anyCls, strLit ".",
                .alt (strLit "ru") (.alt (strLit "tk") (.alt (strLit "ml")
                  (.alt (strLit "ga") (strLit "cf")))), .eos]⟩]

/-- `/^[^\s@]+@[^\s@]+\.[^\s@]+$/` (line 176). -/
def emailRegex : RE :=
  seqs [.plus localCls, strLit "@", .plus localCls, strLit ".", .plus localCls, .eos]

/-- `/^\d+\.\w+$/` (line 203). -/
def numericDomainRegex : RE :=
  seqs [.plus digitCls, strLit ".", .plus wordCls, .eos]

/-- Result object of `validateEmailLegitimacy`. -/
structure EmailResult where
  isValid : Bool
  reason : Option String := none
deriving Repr, DecidableEq

/-- `validateEmailLegitimacy(email, env)` (lines 168-215), with the
disposable-domain set already resolved to `disposableDomains` (the value
`await fetchDisposableDomains(env)` produced).  An empty string models a
falsy or non-string `email`. -/
def validateEmailLegitimacy (email : String) (disposableDomains : List String) : EmailResult :=
  if email = "" then
    { isValid := false, reason := some "Invalid email format" }
  else
    let emailLower := jsTrim (jsToLower email.data)
    if !(reTestAt emailRegex emailLower) then
      { isValid := false, reason := some "Invalid email format" }
    else
      match (jsSplit "@".data emailLower)[1]? with
      | none => { isValid := false, reason := some "Invalid domain" }
      | some domain =>
        if domain = [] then
          { isValid := false, reason := some "Invalid domain" }
        else if (disposableDomains.map String.data).contains domain then
          { isValid := false, reason := some "Disposable email address not allowed" }
        else if SUSPICIOUS_PATTERNS.any (fun p => patternTest p emailLower) then
          { isValid := false, reason := some "Email pattern not allowed" }
        else if reTestAt numericDomainRegex domain then
          { isValid := false, reason := some "Numeric domains not allowed" }
        else
          let parts := jsSplit ".".data domain
          if parts.length < 2 ∨ (parts.getLastD []).length < 2 then
            { isValid := false, reason := some "Invalid domain structure" }
          else
            { isValid := true }

/-- `getEmailErrorMessage(reason)` (lines 222-234): a lookup table with a
default.  The argument is a JS value (the `reason` property of whatever
object the caller holds), so a non-string or `undefined` argument falls
through to the default message. -/
def getEmailErrorMessage (reason : Option String) : String :=
  match reason with
  | some "Invalid email format" => "Please enter a valid email address."
  | some "Invalid domain" => "Please enter a valid email address."
  | some "Disposable email address not allowed" =>
    "Temporary or disposable email addresses are not allowed. Please use a permanent email address."
  | some "Email pattern not allowed" =>
    "This email format is not allowed. Please use a different email address."
  | some "Domain too short" => "Please use an email with a valid domain name."
  | some "Numeric domains not allowed" => "Please use an email with a standard domain name."
  | some "Invalid domain structure" => "Please enter a valid email address with a proper domain."
  | _ => "Please enter a valid email address."

/-! ## Blocklist refresh (`email-validation.js`, `fetchDisposableDomains`) -/

/-- The module-level cache: `DISPOSABLE_DOMAINS_CACHE` (null or a set) and
`CACHE_TIMESTAMP`. -/
structure BlocklistState where
  cache : Option (List String)
  timestamp : Int
deriving Repr, DecidableEq

/-- `CACHE_DURATION`: 24 hours in milliseconds. -/
def CACHE_DURATION : Int := 24 * 60 * 60 * 1000

/-- The persisted `disposable_domains_cache` record in `env.SESSIONS`:
`{ domains, timestamp }`. -/
structure PersistedCache where
  domains : List String
  timestamp : Int
deriving Repr, DecidableEq

/-- `/^[a-z0-9.-]+\.[a-z]{2,}$/` (line 110). -/
def blocklistDomainRegex : RE :=
  seqs [.plus (fun c => ('a' ≤ c && c ≤ 'z') || digitCls c || c = '.' || c = '-'),
        strLit ".", repAtLeast 2 (fun c => 'a' ≤ c && c ≤ 'z'), .eos]

/-- The line-processing pipeline applied to the fetched text
(lines 104-111): split on newlines, trim and lowercase, drop blank and
comment lines and lines without a dot, keep lines of basic domain shape. -/
def processBlocklistText (text : String) : List String :=
  ((((jsSplit "\n".data text.data).map (fun line => jsToLower (jsTrim line))).filter
      (fun line => line ≠ [] && !(listStartsWith "#".data line) && line.contains '.')).filter
    (fun domain => reTestAt blocklistDomainRegex domain)).map String.mk

/-- The probe of the persisted copy (lines 72-87): inside its own
try/catch, so a thrown `get` or a JSON parse failure (`kvGetRes = .error`)
just falls through to the network fetch; a present copy is used only when
its timestamp is within `CACHE_DURATION` of `now`. -/
def kvFreshHit (hasKV : Bool) (kvGetRes : Except String (Option PersistedCache))
    (now : Int) : Option PersistedCache :=
  if hasKV then
    match kvGetRes with
    | .ok (some parsed) => if now - parsed.timestamp < CACHE_DURATION then some parsed else none
    | _ => none
  else none

/-- `fetchDisposableDomains(env)` (lines 63-142).  Effects are injected:
`hasKV` is the truthiness of `env.SESSIONS`; `kvGetRes` the outcome of
reading the persisted copy; `fetchRes` either a thrown network error or
the pair (`response.ok`, body text).  A `put` failure of the refreshed
copy is caught and ignored and cannot affect the returned set or the
in-memory state, so it is not a parameter.  The function returns the
domain set and the new in-memory state; the enclosing try/catch makes it
total — the catch path falls back to the last in-memory set, else to
`FALLBACK_DISPOSABLE_DOMAINS`. -/
def fetchDisposableDomains (st : BlocklistState) (now : Int) (hasKV : Bool)
    (kvGetRes : Except String (Option PersistedCache))
    (fetchRes : Except String (Bool × String)) : List String × BlocklistState :=
  match st.cache with
  | some cached =>
    if now - st.timestamp < CACHE_DURATION then (cached, st)
    else
      match kvFreshHit hasKV kvGetRes now with
      | some parsed => (parsed.domains, ⟨some parsed.domains, parsed.timestamp⟩)
      | none =>
        match fetchRes with
        | .ok (true, text) =>
          let domains := processBlocklistText text
          (domains, ⟨some domains, now⟩)
        | _ => (cached, st)
  | none =>
    match kvFreshHit hasKV kvGetRes now with
    | some parsed => (parsed.domains, ⟨some parsed.domains, parsed.timestamp⟩)
    | none =>
      match fetchRes with
      | .ok (true, text) =>
        let domains := processBlocklistText text
        (domains, ⟨some domains, now⟩)
      | _ => (FALLBACK_DISPOSABLE_DOMAINS, st)

/-! ## Router handlers (`worker.js`)

`handleContact` and `handleSignup` invoke the async
`validateEmailLegitimacy` without `await` (worker.js lines 45 and 232),
so the value they inspect is a pending Promise, not the resolved result
object.  JS values are modelled just finely enough to express that. -/

/-- The JS values flowing through the handlers' email check. -/
inductive JsVal where
  | undefined
  | bool (b : Bool)
  | str (s : String)
  | promiseOf (r : EmailResult)
deriving Repr, DecidableEq

/-- JS truthiness. -/
def jsTruthy : JsVal → Bool
  | .undefined => false
  | .bool b => b
  | .str s => s ≠ ""
  | .promiseOf _ => true

/-- Property access `v.isValid` / `v.reason`: a Promise object owns no
such property (its eventual value is reachable only through `await` or
`.then`), so the access yields `undefined`; likewise for the other
non-object values modelled here. -/
def getProp : JsVal → String → JsVal
  | .promiseOf _, _ => .undefined
  | .undefined, _ => .undefined
  | .bool _, _ => .undefined
  | .str _, _ => .undefined

/-- A minimal HTTP response: status and body (a redirect's body holds the
location). -/
structure HttpResponse where
  status : Nat
  body : String
deriving Repr, DecidableEq

/-- `handleContact(request, env)` (worker.js lines 30-69), after JSON
parsing: `jsonOk` is whether `request.json()` succeeded; empty strings
model falsy/missing fields.  Line 45 binds `emailCheck` to the Promise
returned by `validateEmailLegitimacy(email)` without awaiting it. -/
def handleContact (method : String) (jsonOk : Bool)
    (name email message turnstileToken : String)
    (hasTurnstileSecret turnstileSuccess : Bool) : HttpResponse :=
  if method ≠ "POST" then ⟨405, "Method Not Allowed"⟩
  else if !jsonOk then ⟨400, "Invalid JSON"⟩
  else if name = "" ∨ email = "" ∨ message = "" ∨ turnstileToken = "" then
    ⟨400, "Missing fields"⟩
  else
    let emailCheck : JsVal :=
      .promiseOf (validateEmailLegitimacy email FALLBACK_DISPOSABLE_DOMAINS)
    if !(jsTruthy (getProp emailCheck "isValid")) then ⟨400, "Invalid email"⟩
    else if !hasTurnstileSecret then
      ⟨500, "Server misconfigured: missing Turnstile secret"⟩
    else if !turnstileSuccess then ⟨403, "Turnstile verification failed"⟩
    else ⟨200, "Message sent!"⟩

/-- The POST branch of `handleSignup(request, env)` (worker.js lines
217-263).  Line 232 binds `emailValidation` to an un-awaited Promise; the
error branch then reads `emailValidation.reason`, also `undefined`. -/
def handleSignup (email _password website : String) (userExists : Bool) : HttpResponse :=
  if website ≠ "" ∧ jsTrim website.data ≠ [] then
    ⟨302, "/login?message=Account created! Please log in."⟩
  else
    let emailValidation : JsVal :=
      .promiseOf (validateEmailLegitimacy email FALLBACK_DISPOSABLE_DOMAINS)
    if !(jsTruthy (getProp emailValidation "isValid")) then
      let reason : Option String :=
        match getProp emailValidation "reason" with
        | .str s => some s
        | _ => none
      ⟨400, getEmailErrorMessage reason⟩
    else if userExists then
      ⟨400, "An account with this email already exists."⟩
    else
      ⟨302, "/login?message=Account created! Please log in."⟩

/-! ## Store lemmas -/

theorem kvGet_kvPut {α : Type} (s : Store α) (k : String) (v : α) :
    kvGet (kvPut s k v) k = some v := by
  simp [kvGet, kvPut, List.find?]

theorem kvGet_kvDel {α : Type} (s : Store α) (k : String) :
    kvGet (kvDel s k) k = none := by
  have h : (kvDel s k).find? (fun p => p.1 == k) = none := by
    rw [List.find?_eq_none]
    intro p hp
    have hmem := List.of_mem_filter hp
    simpa using hmem
  simp [kvGet, h]

/-! ## C8: the logout cookie -/

/--
C8: `createSessionCookie` is claimed to emit `Max-Age=<maxAge>` for every
`maxAge` including zero, the logout cookie in particular carrying
`Max-Age=0`.  The code tests `if (maxAge)`, and `0` is falsy, so the
cookie built by the logout route (`createSessionCookie("", { maxAge: 0 })`,
worker.js line 301) carries no `Max-Age` attribute at all: this theorem
evaluates the code at that input.  Since the call site plainly intends a
zero max-age (cookie-clearing) logout cookie, the truthiness test is a
slip in the code.
-/
theorem c8_logout_cookie_omits_max_age :
    createSessionCookie "" { maxAge := 0 } =
      "session=; HttpOnly; Secure; SameSite=Strict; Path=/" := by
  rfl

/-! ## C10: destroySession idempotence -/

/--
C10: `destroySession` is idempotent — a second deletion of the same
identifier leaves the store exactly as the first did — and deleting an
identifier with no stored record changes nothing (and, the operations
being total functions of the store, neither call errors).
-/
theorem c10_destroySession_idempotent (store : Store Session) (sessionId : String) :
    destroySession (destroySession store sessionId) sessionId =
        destroySession store sessionId ∧
      (kvGet store sessionId = none → destroySession store sessionId = store) := by
  constructor
  · unfold destroySession kvDel
    apply List.filter_eq_self.mpr
    intro q hq
    have hkeep := List.of_mem_filter hq
    simpa using hkeep
  · intro h
    unfold destroySession kvDel
    apply List.filter_eq_self.mpr
    intro p hp
    have hfind : store.find? (fun q => q.1 == sessionId) = none := by
      unfold kvGet at h
      cases hf : store.find? (fun q => q.1 == sessionId) with
      | none => rfl
      | some q => rw [hf] at h; simp at h
    have hne := List.find?_eq_none.mp hfind p hp
    simpa using hne

theorem c10_witness :
    destroySession (destroySession
        ([("sid", ⟨"a@b.co", 1, 1, 2, "", "", ""⟩)] : Store Session) "sid") "sid" =
      destroySession ([("sid", ⟨"a@b.co", 1, 1, 2, "", "", ""⟩)] : Store Session) "sid" ∧
    destroySession ([] : Store Session) "missing" = [] :=
  ⟨(c10_destroySession_idempotent _ "sid").1,
   (c10_destroySession_idempotent [] "missing").2 rfl⟩

/-! ## C4: the three concrete validator verdicts -/

/--
C4: with the blocklist resolved to the built-in fallback set,
`validateEmailLegitimacy` rejects `user@mailinator.com` as a disposable
domain, rejects `ab1234567@x.com` as a suspicious pattern
(`/^[a-z]{1,3}\d{4,}@/i`), and accepts `jane.doe@a.co`.
-/
theorem c4_validator_concrete_verdicts :
    validateEmailLegitimacy "user@mailinator.com" FALLBACK_DISPOSABLE_DOMAINS =
        { isValid := false, reason := some "Disposable email address not allowed" } ∧
      validateEmailLegitimacy "ab1234567@x.com" FALLBACK_DISPOSABLE_DOMAINS =
        { isValid := false, reason := some "Email pattern not allowed" } ∧
      validateEmailLegitimacy "jane.doe@a.co" FALLBACK_DISPOSABLE_DOMAINS =
        { isValid := true, reason := none } :=
  ⟨rfl, rfl, rfl⟩

/-! ## C3: the un-awaited email check in the handlers -/

/--
C3: because `validateEmailLegitimacy` is called without `await`
(worker.js lines 45 and 232), the handlers inspect `isValid` on a pending
Promise, which yields `undefined`: every contact POST carrying all four
required fields is answered 400 `Invalid email`, and every signup POST
whose honeypot field is empty is answered 400 with the default email
error message, whatever email address was supplied.
-/
theorem c3_unawaited_email_check
    (name email message turnstileToken website pw : String)
    (userExists hasTurnstileSecret turnstileSuccess : Bool)
    (hn : name ≠ "") (he : email ≠ "") (hm : message ≠ "") (ht : turnstileToken ≠ "")
    (hw : website = "" ∨ jsTrim website.data = []) :
    handleContact "POST" true name email message turnstileToken
        hasTurnstileSecret turnstileSuccess = ⟨400, "Invalid email"⟩ ∧
      handleSignup email pw website userExists =
        ⟨400, "Please enter a valid email address."⟩ := by
  constructor
  · simp [handleContact, hn, he, hm, ht, getProp, jsTruthy]
  · rcases hw with hw | hw <;>
      simp [handleSignup, hw, getProp, jsTruthy, getEmailErrorMessage]

theorem c3_witness :
    handleContact "POST" true "Jane" "jane.doe@a.co" "hello there" "tok" true true =
        ⟨400, "Invalid email"⟩ ∧
      handleSignup "jane.doe@a.co" "hunter2" "" false =
        ⟨400, "Please enter a valid email address."⟩ :=
  c3_unawaited_email_check "Jane" "jane.doe@a.co" "hello there" "tok" "" "hunter2"
    false true true (by decide) (by decide) (by decide) (by decide) (Or.inl rfl)

/-! ## C6: the rate limiter fails open -/

/--
C6: a store error during a rate-limit check never causes a rejection.
First conjunct: if the call with any injected faults rejects, the
fault-free call on the same store rejects too (a rejection can only come
from the fault-free read path, before any write is attempted).  Second
conjunct: a thrown read error always yields `allowed = true` (the outer
catch fails open).
-/
theorem c6_rate_limit_fail_open (store : Store (List Int)) (identifier action : String)
    (limit windowMs now : Int) (getFault putFault : Option KVError) :
    ((checkRateLimit store identifier action limit windowMs now getFault putFault).1.allowed =
          false →
        (checkRateLimit store identifier action limit windowMs now none none).1.allowed =
          false) ∧
      (getFault.isSome = true →
        (checkRateLimit store identifier action limit windowMs now getFault putFault).1.allowed =
          true) := by
  cases getFault with
  | some e =>
    constructor
    · intro h
      simp [checkRateLimit] at h
    · intro _
      simp [checkRateLimit]
  | none =>
    constructor
    · intro h
      unfold checkRateLimit at h ⊢
      by_cases hcond :
          limit ≤
            (((storedRequests store (rlKey action identifier)).filter
                (fun timestamp => now - windowMs < timestamp)).length : Int)
      · simp only [hcond, if_true] at h ⊢
        split <;> rfl
      · simp only [hcond, if_false] at h ⊢
        rcases putFault with _ | e
        · simp at h
        · cases e <;> simp at h
    · intro h
      simp at h

theorem c6_witness :
    (checkRateLimit [] "1.2.3.4" "signup" 3 3600000 1000
        (some (KVError.other "read failed")) none).1.allowed = true :=
  (c6_rate_limit_fail_open [] "1.2.3.4" "signup" 3 3600000 1000
    (some (KVError.other "read failed")) none).2 rfl

/-! ## C9: the throttled logger cap -/

/--
C9 counterexample: the claim promises at most `maxLogsPerHour` successful
store writes within ANY rolling one-hour interval.  The counter window is
anchored at `hourStart` (construction time, then reset time), not at the
writes: with a cap of 1, a logger constructed at time 0 accepts a write
at `t = 3500000` and, after the counter resets at `t = 3600001`, a second
write only 100001 ms later — two successful writes inside one rolling
hour.
-/
theorem c9_counterexample :
    (logStep (mkThrottledLogger (some 1) 0) 3500000 true).returned = true ∧
      (logStep (logStep (mkThrottledLogger (some 1) 0) 3500000 true).state 3600001
            true).returned = true ∧
      (mkThrottledLogger (some 1) 0).maxLogsPerHour = 1 ∧
      (3600001 - 3500000 : Int) ≤ 60 * 60 * 1000 := by
  refine ⟨rfl, rfl, rfl, by norm_num⟩

/--
C9 (amended): the cap is enforced per counter window anchored at
`hourStart`, not per rolling hour.  For any instance state whose count is
within the cap: (1) a `log` call never pushes `logCount` beyond
`maxLogsPerHour` (and the count grows only on a successful write), so at
most `maxLogsPerHour` successful writes happen per counter window; and
(2) once `logCount` has reached the cap, a call made within one hour of
`hourStart` returns `false`, attempts no store write, and leaves the
state unchanged — only after more than an hour from `hourStart` does the
window roll over.
-/
theorem c9_throttled_logger_cap (st : ThrottledLoggerState) (now : Int) (w : Bool)
    (hmax : 0 ≤ st.maxLogsPerHour) (hcount : st.logCount ≤ st.maxLogsPerHour) :
    ((logStep st now w).state.logCount ≤ st.maxLogsPerHour) ∧
      (st.maxLogsPerHour ≤ st.logCount → now - st.hourStart ≤ 60 * 60 * 1000 →
        logStep st now w = ⟨false, st, false⟩) := by
  constructor
  · unfold logStep
    by_cases hr : now - st.hourStart > 60 * 60 * 1000
    · simp only [hr, if_true]
      by_cases hc2 : st.maxLogsPerHour ≤ (0 : Int)
      · simp [hc2, hmax]
      · cases w <;> simp [hc2] <;> omega
    · simp only [hr, if_false]
      by_cases hc2 : st.maxLogsPerHour ≤ st.logCount
      · simp [hc2, hcount]
      · cases w <;> simp [hc2] <;> omega
  · intro hcap hwin
    unfold logStep
    have hreset : ¬(now - st.hourStart > 60 * 60 * 1000) := by omega
    simp only [hreset, if_false]
    have : st.maxLogsPerHour ≤ st.logCount := hcap
    simp [this]

theorem c9_witness :
    (logStep ⟨100, 100, 0⟩ 1000 true).state.logCount ≤ (100 : Int) ∧
      logStep ⟨100, 100, 0⟩ 1000 true = ⟨false, ⟨100, 100, 0⟩, false⟩ :=
  ⟨(c9_throttled_logger_cap ⟨100, 100, 0⟩ 1000 true (by norm_num) (by norm_num)).1,
   (c9_throttled_logger_cap ⟨100, 100, 0⟩ 1000 true (by norm_num) (by norm_num)).2
     (by norm_num) (by norm_num)⟩

/-! ## C5: blocklist refresh fallback -/

/--
C5 counterexample: the claim says a failed refresh falls back to the last
good in-memory set, then to the last good persisted copy EVEN IF STALE,
then to the hardcoded set.  The code consults the persisted copy only
before fetching and only when it is fresh; the catch path goes straight
from the in-memory set to the hardcoded fallback.  Concretely: no
in-memory cache, a stale persisted copy `["stale.example"]`, and a thrown
network fetch yield the hardcoded fallback set, not the persisted copy.
-/
theorem c5_counterexample :
    fetchDisposableDomains ⟨none, 0⟩ 200000000 true (.ok (some ⟨["stale.example"], 0⟩))
        (.error "network error") =
      (FALLBACK_DISPOSABLE_DOMAINS, ⟨none, 0⟩) ∧
      FALLBACK_DISPOSABLE_DOMAINS ≠ ["stale.example"] :=
  ⟨rfl, by decide⟩

/--
C5 (amended): `fetchDisposableDomains` is total — no failure of the
refresh escapes it — and when the refresh actually fails (the in-memory
cache did not satisfy the freshness check, no fresh persisted copy was
available, and the fetch threw or returned a non-ok response) it falls
back to the last good in-memory set even if stale, else to the hardcoded
fallback set; a stale persisted copy is never used.
-/
theorem c5_blocklist_fallback (st : BlocklistState) (now : Int) (hasKV : Bool)
    (kvGetRes : Except String (Option PersistedCache))
    (fetchRes : Except String (Bool × String))
    (hmem : ∀ cached, st.cache = some cached → ¬(now - st.timestamp < CACHE_DURATION))
    (hkv : kvFreshHit hasKV kvGetRes now = none)
    (hfetch : ∀ text, fetchRes ≠ .ok (true, text)) :
    fetchDisposableDomains st now hasKV kvGetRes fetchRes =
      (match st.cache with
       | some cached => (cached, st)
       | none => (FALLBACK_DISPOSABLE_DOMAINS, st)) := by
  cases hc : st.cache with
  | some cached =>
    unfold fetchDisposableDomains
    rw [hc]
    simp only [hmem cached hc, if_false, hkv]
  | none =>
    unfold fetchDisposableDomains
    rw [hc]
    simp only [hkv]

theorem c5_witness :
    fetchDisposableDomains ⟨some ["goodset.example"], 0⟩ 200000000 false (.ok none)
        (.error "network error") =
      (["goodset.example"], ⟨some ["goodset.example"], 0⟩) :=
  c5_blocklist_fallback ⟨some ["goodset.example"], 0⟩ 200000000 false (.ok none)
    (.error "network error")
    (fun _ _ => by decide)
    rfl
    (fun text h => by simp at h)

/-! ## C1: getSession validity conditions -/

/--
C1 counterexample: the claim says `getSession` returns absent (and
deletes the record) whenever `now ≥ expiresAt` or
`now - lastActivity ≥ idleTimeout`.  The code tests strictly
(`session.expiresAt < Date.now()`, `Date.now() - session.lastActivity >
config.session.timeout`): at the boundary `now = expiresAt = 100` (and
`lastActivity = now`, so the idle bound is exactly met too at distance 0
— take instead the expiry bound, which is met with equality) the code
returns the session and leaves the store untouched.
-/
theorem c1_counterexample :
    getSession (some "session=sid")
        [("sid", ⟨"u@example.com", 50, 100, 100, "", "", ""⟩)] 100 defaultConfig none =
      .ok ⟨some ⟨"u@example.com", 50, 100, 100, "", "", "sid"⟩,
        [("sid", ⟨"u@example.com", 50, 100, 100, "", "", ""⟩)], false⟩ :=
  rfl

/--
C1 (amended): for a stored record reachable through the cookie,
`getSession` (run with the debounce write succeeding) returns absent iff
`expiresAt` is nonzero and `now > expiresAt`, or `lastActivity` is
nonzero and `now - lastActivity > idleTimeout` (both strict; a zero or
absent field disables its check), and in exactly those cases the record
is deleted from the store; otherwise the session is returned.
-/
theorem c1_getSession_validity (cookie id : String) (store : Store Session)
    (now : Int) (cfg : Config) (sess : Session)
    (hc : parseSessionId (some cookie) = some id)
    (hs : kvGet store id = some sess) :
    ∃ r : GetSessionResult,
      getSession (some cookie) store now cfg none = .ok r ∧
        (r.session = none ↔
          (sess.expiresAt ≠ 0 ∧ sess.expiresAt < now) ∨
            (sess.lastActivity ≠ 0 ∧ now - sess.lastActivity > cfg.session.timeout)) ∧
        ((sess.expiresAt ≠ 0 ∧ sess.expiresAt < now) ∨
            (sess.lastActivity ≠ 0 ∧ now - sess.lastActivity > cfg.session.timeout) →
          r.store = destroySession store id) := by
  unfold getSession
  rw [hc]
  simp only [hs]
  by_cases h1 : sess.expiresAt ≠ 0 ∧ sess.expiresAt < now
  · refine ⟨⟨none, destroySession store id, false⟩, ?_, ?_, ?_⟩
    · simp [h1]
    · simp [h1]
    · intro _
      rfl
  · by_cases h2 : sess.lastActivity ≠ 0 ∧ now - sess.lastActivity > cfg.session.timeout
    · refine ⟨⟨none, destroySession store id, false⟩, ?_, ?_, ?_⟩
      · simp [h1, h2]
      · simp [h2]
      · intro _
        rfl
    · by_cases h3 : sess.lastActivity = 0 ∨ now - sess.lastActivity > 5 * 60 * 1000
      · refine ⟨⟨some { sess with lastActivity := now, id := id },
          kvPut store id { sess with lastActivity := now }, true⟩, ?_, ?_, ?_⟩
        · simp [h1, h2, h3]; omega
        · simp [h1, h2]
        · intro h
          exact absurd h (by tauto)
      · refine ⟨⟨some { sess with id := id }, store, false⟩, ?_, ?_, ?_⟩
        · simp [h1, h2, h3]; omega
        · simp [h1, h2]
        · intro h
          exact absurd h (by tauto)

theorem c1_witness :
    ∃ r : GetSessionResult,
      getSession (some "session=sid")
          [("sid", ⟨"u@example.com", 0, 50, 80, "", "", ""⟩)] 100 defaultConfig none =
        .ok r ∧
        (r.session = none ↔
          (((80 : Int) ≠ 0 ∧ (80 : Int) < 100) ∨
            ((50 : Int) ≠ 0 ∧ (100 - 50 : Int) > defaultConfig.session.timeout))) ∧
        ((((80 : Int) ≠ 0 ∧ (80 : Int) < 100) ∨
            ((50 : Int) ≠ 0 ∧ (100 - 50 : Int) > defaultConfig.session.timeout)) →
          r.store = destroySession
            [("sid", ⟨"u@example.com", 0, 50, 80, "", "", ""⟩)] "sid") :=
  c1_getSession_validity "session=sid" "sid"
    [("sid", ⟨"u@example.com", 0, 50, 80, "", "", ""⟩)] 100 defaultConfig
    ⟨"u@example.com", 0, 50, 80, "", "", ""⟩ rfl rfl

/-! ## C7: create-then-get round trip -/

/--
C7: under the default configuration, `createSession` followed by
`getSession` with the returned identifier, strictly less than the
five-minute debounce interval later, yields a session whose email is the
input and whose `lastActivity` is still the creation time, and
`getSession` performs no second store write (result field `wrote` is
`false` and the store is returned unchanged).
-/
theorem c7_create_then_get (store : Store Session) (sid email : String)
    (now now2 : Int) (hpos : 0 < now) (hle : now ≤ now2)
    (hdeb : now2 - now < 5 * 60 * 1000)
    (hparse : parseSessionId (some ("session=" ++ sid)) = some sid) :
    getSession (some ("session=" ++ (createSession store sid email now defaultConfig {}).1))
        (createSession store sid email now defaultConfig {}).2 now2 defaultConfig none =
      .ok ⟨some ⟨email, now, now, now + 604800000, "", "", sid⟩,
        (createSession store sid email now defaultConfig {}).2, false⟩ := by
  have e1 : ¬((now + (604800000 : Int) ≠ 0) ∧ now + (604800000 : Int) < now2) := by
    omega
  have e2 : ¬((now ≠ 0) ∧ now2 - now > (1800000 : Int)) := by
    omega
  have e3 : ¬(now = 0 ∨ now2 - now > 5 * 60 * 1000) := by
    omega
  unfold createSession getSession
  simp only [hparse, kvGet_kvPut, defaultConfig]
  simp only [e1, e2, e3, if_false]
  simp [e1, e2, e3]

theorem c7_witness :
    getSession (some ("session=" ++ (createSession [] "abc" "u@b.co" 1000 defaultConfig {}).1))
        (createSession [] "abc" "u@b.co" 1000 defaultConfig {}).2 1000 defaultConfig none =
      .ok ⟨some ⟨"u@b.co", 1000, 1000, 1000 + 604800000, "", "", "abc"⟩,
        (createSession [] "abc" "u@b.co" 1000 defaultConfig {}).2, false⟩ :=
  c7_create_then_get [] "abc" "u@b.co" 1000 1000 (by norm_num) (by norm_num)
    (by norm_num) rfl

/-! ## C2: rate limiter window behaviour -/

theorem storedRequests_kvPut (s : Store (List Int)) (k : String) (v : List Int) :
    storedRequests (kvPut s k v) k = v := by
  simp [storedRequests, kvGet_kvPut]

theorem foldl_min_of_le (x : Int) (xs : List Int) (h : ∀ y ∈ xs, x ≤ y) :
    xs.foldl min x = x := by
  induction xs with
  | nil => rfl
  | cons y ys ih =>
    have hy : x ≤ y := h y (List.mem_cons_self y ys)
    have : min x y = x := min_eq_left hy
    simp only [List.foldl_cons, this]
    exact ih (fun z hz => h z (List.mem_cons_of_mem y hz))

theorem mathMin_cons (x : Int) (xs : List Int) (h : ∀ y ∈ xs, x ≤ y) :
    mathMin (x :: xs) = some x := by
  simp [mathMin, foldl_min_of_le x xs h]

theorem runRateLimit_go (identifier action : String) (limit windowMs lo : Int)
    (hpos : 0 < limit) :
    ∀ (ts : List Int) (s : Store (List Int)) (pre : List Int),
      storedRequests s (rlKey action identifier) = pre →
      pre.length ≤ limit.toNat →
      (∀ x ∈ pre ++ ts, lo ≤ x ∧ x < lo + windowMs) →
      (pre ++ ts).Pairwise (· ≤ ·) →
      (runRateLimit identifier action limit windowMs s ts).1 =
        (List.range ts.length).map (fun i =>
          if pre.length + i < limit.toNat then
            { allowed := true,
              remaining := limit - ((pre.length + i + 1 : Nat) : Int),
              resetTime := some (ts.getD i 0 + windowMs) }
          else
            { allowed := false, remaining := 0,
              resetTime := some ((pre ++ ts).headD 0 + windowMs) }) := by
  intro ts
  induction ts with
  | nil =>
    intro s pre hst hlen hb hp
    rfl
  | cons t ts ih =>
    intro s pre hst hlen hb hp
    have hfilter : pre.filter (fun x => decide (t - windowMs < x)) = pre := by
      apply List.filter_eq_self.mpr
      intro x hx
      have hlox : lo ≤ x := (hb x (List.mem_append_left _ hx)).1
      have htw : t < lo + windowMs :=
        (hb t (List.mem_append_right _ (List.mem_cons_self t ts))).2
      simp only [decide_eq_true_eq]
      omega
    by_cases hcase : limit ≤ ((pre.length : Nat) : Int)
    · -- rejection: the stored window is full
      have hlen2 : pre.length = limit.toNat := by omega
      have hpre : pre ≠ [] := by
        intro hnil
        rw [hnil] at hlen2
        simp at hlen2
        omega
      obtain ⟨x, pre2, hxp⟩ := List.exists_cons_of_ne_nil hpre
      subst hxp
      simp only [List.length_cons] at hlen2
      have hpc : List.Pairwise (fun a b => a ≤ b) (x :: (pre2 ++ t :: ts)) := by
        rw [← List.cons_append]
        exact hp
      have hx_le : ∀ y ∈ pre2 ++ t :: ts, x ≤ y := (List.pairwise_cons.mp hpc).1
      have hmin : mathMin (x :: pre2) = some x := by
        apply mathMin_cons
        intro y hy
        exact hx_le y (List.mem_append_left _ hy)
      have hb2 : ∀ y ∈ (x :: pre2) ++ ts, lo ≤ y ∧ y < lo + windowMs := by
        intro y hy
        apply hb
        rcases List.mem_append.mp hy with h | h
        · exact List.mem_append_left _ h
        · exact List.mem_append_right _ (List.mem_cons_of_mem t h)
      have hp2 : List.Pairwise (fun a b => a ≤ b) ((x :: pre2) ++ ts) := by
        refine List.Pairwise.sublist ?_ hp
        exact List.Sublist.append_left (List.sublist_cons_self t ts) (x :: pre2)
      simp only [runRateLimit, checkRateLimit, hst, hfilter, if_pos hcase, hmin]
      rw [ih s (x :: pre2) hst hlen hb2 hp2]
      simp only [List.length_cons]
      rw [List.range_succ_eq_map, List.map_cons, List.map_map]
      congr 1
      · have hc0 : ¬(pre2.length + 1 + 0 < limit.toNat) := by omega
        rw [if_neg hc0]
        simp
      · congr 1
        funext i
        simp only [Function.comp_apply, List.length_cons]
        have hA : ¬(pre2.length + 1 + i < limit.toNat) := by omega
        have hB : ¬(pre2.length + 1 + (i + 1) < limit.toNat) := by omega
        rw [if_neg hA, if_neg hB]
        simp
    · -- allowed: the current timestamp is appended
      have hlt : pre.length < limit.toNat := by omega
      have hst2 : storedRequests (kvPut s (rlKey action identifier) (pre ++ [t]))
          (rlKey action identifier) = pre ++ [t] := storedRequests_kvPut _ _ _
      have hlen2 : (pre ++ [t]).length ≤ limit.toNat := by
        simp only [List.length_append, List.length_singleton]
        omega
      have hb2 : ∀ y ∈ (pre ++ [t]) ++ ts, lo ≤ y ∧ y < lo + windowMs := by
        intro y hy
        apply hb
        rw [List.append_assoc, List.singleton_append] at hy
        exact hy
      have hp2 : List.Pairwise (fun a b => a ≤ b) ((pre ++ [t]) ++ ts) := by
        rw [List.append_assoc, List.singleton_append]
        exact hp
      simp only [runRateLimit, checkRateLimit, hst, hfilter, if_neg hcase]
      rw [ih _ (pre ++ [t]) hst2 hlen2 hb2 hp2]
      simp only [List.length_cons]
      rw [List.range_succ_eq_map, List.map_cons, List.map_map]
      congr 1
      · have hc0 : pre.length + 0 < limit.toNat := by omega
        rw [if_pos hc0]
        simp [List.length_append]
      · congr 1
        funext i
        simp only [Function.comp_apply, List.length_append, List.length_singleton]
        by_cases hci : pre.length + (i + 1) < limit.toNat
        · rw [if_pos (show pre.length + 1 + i < limit.toNat by omega), if_pos hci]
          simp only [List.getD_cons_succ, RateLimitResult.mk.injEq, true_and, and_true]
          omega
        · rw [if_neg (show ¬(pre.length + 1 + i < limit.toNat) by omega), if_neg hci]
          rw [List.append_assoc, List.singleton_append]

/--
C2: starting from an empty store, for any sequence of fault-free
`checkRateLimit` calls on one `(action, identifier)` key at nondecreasing
timestamps all within `windowMs` of a common lower bound, the first
`limit` calls are allowed with `remaining = limit - 1, limit - 2, …, 0`
and `resetTime = now + windowMs`, and every later call is rejected with
`remaining = 0` and `resetTime` equal to the oldest surviving stored
timestamp (the first call time) plus `windowMs`.  Instantiated at
`limit = 3`, `windowMs = 3600000` and four calls within a minute, this is
the spec's signup scenario: `remaining` 2, 1, 0, then a rejection
(`c2_witness`).
-/
theorem c2_rate_limit_window (identifier action : String) (limit windowMs lo : Int)
    (ts : List Int) (hpos : 0 < limit)
    (hb : ∀ t ∈ ts, lo ≤ t ∧ t < lo + windowMs)
    (hmono : ts.Pairwise (· ≤ ·)) :
    (runRateLimit identifier action limit windowMs [] ts).1 =
      (List.range ts.length).map (fun i =>
        if i < limit.toNat then
          { allowed := true, remaining := limit - ((i + 1 : Nat) : Int),
            resetTime := some (ts.getD i 0 + windowMs) }
        else
          { allowed := false, remaining := 0,
            resetTime := some (ts.headD 0 + windowMs) }) := by
  have h := runRateLimit_go identifier action limit windowMs lo hpos ts [] []
    rfl (by simp) (by simpa using hb) (by simpa using hmono)
  simpa using h

theorem c2_witness :
    (runRateLimit "1.2.3.4" "signup" 3 3600000 [] [1000, 2000, 3000, 4000]).1 =
      [⟨true, 2, some 3601000⟩, ⟨true, 1, some 3602000⟩, ⟨true, 0, some 3603000⟩,
       ⟨false, 0, some 3601000⟩] :=
  (c2_rate_limit_window "1.2.3.4" "signup" 3 3600000 1000 [1000, 2000, 3000, 4000]
    (by decide) (by decide) (by decide)).trans (by decide)

end Worker
